import Mathlib

/-!
Shallow embedding of the Pomocus pomodoro timer (src/src/pomocus.py and
src/src/settings.py) and proofs about the specified behaviour of its core
timer engine and settings store.

Conventions of the embedding:
* Python integers are modelled as `Int` (they are unbounded and signed).
* The three timer-mode strings `'work'`, `'short_break'`, `'long_break'` are
  modelled by the inductive `Mode`; these are the only mode strings the
  program ever constructs or passes, and the `if/elif/else` chains of the
  source treat any non-work, non-short-break string as the long-break case,
  which the third constructor captures.
* The optional observer callbacks `on_tick`, `on_complete`, `on_mode_change`
  are modelled as an emitted list of `Event`s, in the order the callbacks
  fire in the source.
* `%` on `Int` is Lean's `Int.emod`; it agrees with Python's `%` whenever the
  divisor is positive, which holds in every state considered here
  (`long_break_interval` is positive).
-/

namespace Pomocus

/-- Timer mode, the value of `self.timer_mode` in `PomodoroLogic`. -/
inductive Mode where
  | work
  | short_break
  | long_break
deriving DecidableEq

/-- The mutable fields of `PomodoroLogic` (src/src/pomocus.py, `__init__`). -/
structure LogicState where
  work_duration : Int
  short_break_duration : Int
  long_break_duration : Int
  long_break_interval : Int
  auto_start : Bool
  time_left : Int
  total_time : Int
  is_running : Bool
  timer_mode : Mode
  pomodoros_completed : Int
deriving DecidableEq

/-- Observer notifications fired by the engine (`on_tick`, `on_complete`
carrying the completed mode, `on_mode_change` carrying the new mode). -/
inductive Event where
  | tick
  | complete (completed_mode : Mode)
  | modeChange (m : Mode)
deriving DecidableEq

/-- `PomodoroLogic.__init__(work_min, short_break_min, long_break_min,
long_break_interval, auto_start)`. -/
def init (work_min short_break_min long_break_min long_break_interval : Int)
    (auto : Bool) : LogicState :=
  { work_duration := work_min
    short_break_duration := short_break_min
    long_break_duration := long_break_min
    long_break_interval := long_break_interval
    auto_start := auto
    time_left := work_min * 60
    total_time := work_min * 60
    is_running := false
    timer_mode := Mode.work
    pomodoros_completed := 0 }

/-- `PomodoroLogic.start`. -/
def start (s : LogicState) : LogicState :=
  { s with is_running := true }

/-- `PomodoroLogic.pause`. -/
def pause (s : LogicState) : LogicState :=
  { s with is_running := false }

/-- `PomodoroLogic.reset`: stop and re-derive `time_left`/`total_time` from
the current mode's configured duration. -/
def reset (s : LogicState) : LogicState :=
  let s1 : LogicState := { s with is_running := false }
  match s1.timer_mode with
  | Mode.work =>
      { s1 with time_left := s1.work_duration * 60, total_time := s1.work_duration * 60 }
  | Mode.short_break =>
      { s1 with time_left := s1.short_break_duration * 60, total_time := s1.short_break_duration * 60 }
  | Mode.long_break =>
      { s1 with time_left := s1.long_break_duration * 60, total_time := s1.long_break_duration * 60 }

/-- `PomodoroLogic.switch_mode(mode)`: set the mode, re-derive both time
fields from its configured duration, fire `on_mode_change(mode)`. -/
def switch_mode (s : LogicState) (mode : Mode) : LogicState × List Event :=
  let s1 : LogicState := { s with timer_mode := mode }
  let s2 : LogicState :=
    match mode with
    | Mode.work =>
        { s1 with time_left := s1.work_duration * 60, total_time := s1.work_duration * 60 }
    | Mode.short_break =>
        { s1 with time_left := s1.short_break_duration * 60, total_time := s1.short_break_duration * 60 }
    | Mode.long_break =>
        { s1 with time_left := s1.long_break_duration * 60, total_time := s1.long_break_duration * 60 }
  (s2, [Event.modeChange mode])

/-- `PomodoroLogic.complete`: stop, record the completed mode, pick the next
mode (work completions increment the round counter and use the modulo rule;
break completions always return to work), switch to it, fire
`on_complete(completed_mode)` and, if `auto_start`, call `start()`. -/
def complete (s : LogicState) : LogicState × List Event :=
  let s1 : LogicState := { s with is_running := false }
  let completed_mode := s1.timer_mode
  let p : LogicState × List Event :=
    if s1.timer_mode = Mode.work then
      let s2 : LogicState := { s1 with pomodoros_completed := s1.pomodoros_completed + 1 }
      let next_mode : Mode :=
        if s2.pomodoros_completed % s2.long_break_interval = 0 then Mode.long_break
        else Mode.short_break
      switch_mode s2 next_mode
    else
      switch_mode s1 Mode.work
  ((if p.1.auto_start then start p.1 else p.1),
    p.2 ++ [Event.complete completed_mode])

/-- `PomodoroLogic.skip`: stop, zero the clock, then run the completion
transition. -/
def skip (s : LogicState) : LogicState × List Event :=
  complete { s with is_running := false, time_left := 0 }

/-- `PomodoroLogic.reset_flow`: zero the round counter, stop, switch to work. -/
def reset_flow (s : LogicState) : LogicState × List Event :=
  switch_mode { s with pomodoros_completed := 0, is_running := false } Mode.work

/-- `PomodoroLogic.tick`: the per-second advancement primitive. Returns the
new state, the Python return value (`True` for a decrement, `False`
otherwise) and the fired notifications. -/
def tick (s : LogicState) : LogicState × Bool × List Event :=
  if s.is_running = true ∧ 0 < s.time_left then
    ({ s with time_left := s.time_left - 1 }, true, [Event.tick])
  else if s.is_running = true ∧ s.time_left = 0 then
    ((complete s).1, false, (complete s).2)
  else
    (s, false, [])

/-- `PomodoroLogic.update_durations(work_min, short_min, long_min, interval,
auto_start)`: replace the configuration, then reset the flow. -/
def update_durations (s : LogicState) (work_min short_min long_min interval : Int)
    (auto : Bool) : LogicState × List Event :=
  switch_mode
    { s with
        work_duration := work_min
        short_break_duration := short_min
        long_break_duration := long_min
        long_break_interval := interval
        auto_start := auto
        pomodoros_completed := 0
        is_running := false }
    Mode.work

/-- `PomodoroLogic.get_progress`: `(total_time - time_left) / total_time`
guarded by `total_time > 0`, else `0.0`. Python's float division is modelled
exactly over `ℚ`. -/
def get_progress (s : LogicState) : ℚ :=
  if 0 < s.total_time then
    ((s.total_time - s.time_left : Int) : ℚ) / ((s.total_time : Int) : ℚ)
  else 0

/-- The configured duration (in minutes) that `switch_mode`/`reset` associate
with a given mode. -/
def mode_duration_min (s : LogicState) (m : Mode) : Int :=
  match m with
  | Mode.work => s.work_duration
  | Mode.short_break => s.short_break_duration
  | Mode.long_break => s.long_break_duration

/-- The public mutating entry points of the engine. -/
inductive Op where
  | start
  | pause
  | reset
  | resetFlow
  | skip
  | tick
  | reconfigure (work_min short_min long_min interval : Int) (auto : Bool)

/-- Apply one public operation to a state (events and return values
discarded). -/
def applyOp (s : LogicState) : Op → LogicState
  | Op.start => start s
  | Op.pause => pause s
  | Op.reset => reset s
  | Op.resetFlow => (reset_flow s).1
  | Op.skip => (skip s).1
  | Op.tick => (tick s).1
  | Op.reconfigure w sm lm i a => (update_durations s w sm lm i a).1

/-- An operation is valid when any configuration it installs is positive;
the parameterless operations are always valid. -/
def opValid : Op → Prop
  | Op.reconfigure w sm lm i _ => 0 < w ∧ 0 < sm ∧ 0 < lm ∧ 0 < i
  | _ => True

/-- Apply a list of operations left to right. -/
def applyOps (s : LogicState) (ops : List Op) : LogicState :=
  ops.foldl applyOp s

/-- States reachable from a positively-configured initial state via valid
public operations. -/
inductive Reachable : LogicState → Prop where
  | init (w sm lm i : Int) (a : Bool)
      (hw : 0 < w) (hs : 0 < sm) (hl : 0 < lm) (hi : 0 < i) :
      Reachable (init w sm lm i a)
  | step (s : LogicState) (op : Op) (h : Reachable s) (hv : opValid op) :
      Reachable (applyOp s op)

/-! ### Settings store (src/src/settings.py) -/

/-- JSON values as produced by `json.load`. Floating-point numbers are not
modelled; no claim examined here involves them. -/
inductive Json where
  | null
  | bool (b : Bool)
  | int (n : Int)
  | str (s : String)
  | arr (xs : List Json)
  | obj (kvs : List (String × Json))

/-- Last-binding lookup in an association list; matches Python `dict`
semantics where later assignments to the same key win (`dict.update`,
duplicate JSON keys). -/
def lookupLast (kvs : List (String × Json)) (k : String) : Option Json :=
  match kvs with
  | [] => none
  | (k2, v) :: rest =>
      match lookupLast rest k with
      | some r => some r
      | none => if k2 = k then some v else none

/-- Python truthiness `bool(x)` on a JSON value: `None`, `False`, `0`, empty
string/list/dict are falsy, everything else truthy. -/
def pyBool : Json → Bool
  | Json.null => false
  | Json.bool b => b
  | Json.int n => decide (n ≠ 0)
  | Json.str s => decide (s ≠ "")
  | Json.arr xs => !xs.isEmpty
  | Json.obj kvs => !kvs.isEmpty

/-- ASCII whitespace characters stripped by Python `int()` before parsing
(space, tab, newline, carriage return, vertical tab, form feed). -/
def isSpaceChar (c : Char) : Bool :=
  c = ' ' || c = '\t' || c = '\n' || c = '\r' || c = '\x0b' || c = '\x0c'

/-- Digit-run parser for Python integer literals: decimal digits with single
underscores allowed only between two digits (`1_000` parses, `_1`, `1_`,
`1__0` do not). `prevDigit` records whether the previous character was a
digit (so an underscore may follow, and the run may end). -/
def parseDigitsAux (prevDigit : Bool) (acc : Nat) : List Char → Option Nat
  | [] => if prevDigit then some acc else none
  | c :: rest =>
      if c.isDigit then parseDigitsAux true (acc * 10 + (c.toNat - 48)) rest
      else if c = '_' && prevDigit then parseDigitsAux false acc rest
      else none

/-- Python `int(s)` on a string: optional surrounding whitespace, optional
sign, decimal digits with single underscores between digits; anything else
raises `ValueError` (`none`). Scope: the model covers the ASCII fragment;
Python additionally accepts non-ASCII Unicode decimal digits and Unicode
spaces, which no theorem below exercises — `strToInt` is only ever applied
to concrete ASCII literals. -/
def strToInt (s : String) : Option Int :=
  let chars := ((s.data.dropWhile isSpaceChar).reverse.dropWhile isSpaceChar).reverse
  match chars with
  | '-' :: rest => (parseDigitsAux false 0 rest).map (fun n => -(n : Int))
  | '+' :: rest => (parseDigitsAux false 0 rest).map (fun n => (n : Int))
  | rest => (parseDigitsAux false 0 rest).map (fun n => (n : Int))

/-- Python `int(x)` on a JSON value: ints pass through, booleans coerce to
0/1 (`bool` is an `int` subclass), numeric strings parse, `None`, lists,
dicts and non-numeric strings raise (`none`). -/
def pyInt : Json → Option Int
  | Json.null => none
  | Json.bool b => some (if b then 1 else 0)
  | Json.int n => some n
  | Json.str s => strToInt s
  | Json.arr _ => none
  | Json.obj _ => none

/-- The sanitized settings record: the typed contents of the dict returned
by `SettingsManager._sanitize_settings` / `_get_defaults`. -/
structure Settings where
  work_duration : Int
  short_break_duration : Int
  long_break_duration : Int
  long_break_interval : Int
  auto_start : Bool
  enable_sound : Bool
  theme_mode : String
deriving DecidableEq

/-- `SettingsManager._get_defaults` (the class-level `DEFAULT_*` constants). -/
def get_defaults : Settings :=
  { work_duration := 25
    short_break_duration := 5
    long_break_duration := 15
    long_break_interval := 4
    auto_start := false
    enable_sound := true
    theme_mode := "dark" }

/-- `_get_defaults` viewed as the raw JSON dict that `_load_settings` merges
loaded data into (`defaults.update(loaded)`). -/
def defaults_json : List (String × Json) :=
  [("work_duration", Json.int 25),
   ("short_break_duration", Json.int 5),
   ("long_break_duration", Json.int 15),
   ("long_break_interval", Json.int 4),
   ("auto_start", Json.bool false),
   ("theme_mode", Json.str "dark"),
   ("enable_sound", Json.bool true)]

/-- The local `_clamp_int(value, min_value, max_value, fallback)` helper of
`_sanitize_settings`: `int()` failures (including `None` for a missing key)
return the fallback, otherwise `max(min_value, min(max_value, ivalue))`. -/
def clamp_int (value : Option Json) (min_value max_value fallback : Int) : Int :=
  match value with
  | none => fallback
  | some j =>
      match pyInt j with
      | none => fallback
      | some i => max min_value (min max_value i)

/-- The `theme_mode` rule of `_sanitize_settings`: `theme_mode in
self.THEMES` keeps the value only when it is the key `"dark"` or `"light"`.
Other hashable values (`None`, booleans, integers, other strings) are simply
not keys and fall back to the default, but an unhashable value (a JSON array
or object) makes the `in` test raise `TypeError`, which neither
`_sanitize_settings` nor `_load_settings` catches — modelled as `none`. -/
def sanitize_theme (j : Json) : Option String :=
  match j with
  | Json.str s => some (if s = "dark" ∨ s = "light" then s else "dark")
  | Json.null => some "dark"
  | Json.bool _ => some "dark"
  | Json.int _ => some "dark"
  | Json.arr _ => none
  | Json.obj _ => none

/-- `SettingsManager._sanitize_settings(settings)` on a raw dict. `none`
models the uncaught `TypeError` from the `theme_mode` membership test; the
integer and boolean rules never raise (`_clamp_int` catches `TypeError` and
`ValueError`, and `bool()` is total). -/
def sanitize_settings (settings : List (String × Json)) : Option Settings :=
  match sanitize_theme ((lookupLast settings "theme_mode").getD (Json.str "dark")) with
  | none => none
  | some tm =>
      some
        { work_duration := clamp_int (lookupLast settings "work_duration") 1 90 25
          short_break_duration := clamp_int (lookupLast settings "short_break_duration") 1 30 5
          long_break_duration := clamp_int (lookupLast settings "long_break_duration") 1 60 15
          long_break_interval := clamp_int (lookupLast settings "long_break_interval") 1 10 4
          auto_start := pyBool ((lookupLast settings "auto_start").getD (Json.bool false))
          enable_sound := pyBool ((lookupLast settings "enable_sound").getD (Json.bool true))
          theme_mode := tm }

/-- The observable condition of the settings file when `_load_settings`
runs: absent, unreadable (`IOError`), undecodable (`json.JSONDecodeError`),
or successfully parsed into a JSON object. -/
inductive SettingsFile where
  | missing
  | unreadable
  | malformed
  | parsed (kvs : List (String × Json))

/-- `SettingsManager._load_settings`: a missing, unreadable or malformed file
yields the defaults; a parsed object is merged over the defaults and
sanitized. `none` models a load that raises an uncaught exception (the
unhashable-`theme_mode` `TypeError` of `sanitize_theme`) and so produces no
settings record at all. -/
def load_settings : SettingsFile → Option Settings
  | SettingsFile.missing => some get_defaults
  | SettingsFile.unreadable => some get_defaults
  | SettingsFile.malformed => some get_defaults
  | SettingsFile.parsed kvs => sanitize_settings (defaults_json ++ kvs)

/-- A theme color palette, one entry of `SettingsManager.THEMES`. -/
structure ThemePalette where
  work : String
  short_break : String
  long_break : String
  bg_primary : String
  button_bg : String
  modal_bg : String
  modal_border : String
  text_primary : String
  text_secondary : String
  text_muted : String
  progress_bg : String
  timer_bg : String
  success : String
  error : String
  warning : String
deriving DecidableEq

/-- `SettingsManager.THEMES['dark']`. -/
def dark_theme : ThemePalette :=
  { work := "#FF6B6B", short_break := "#4ECDC4", long_break := "#45B7D1"
    bg_primary := "#1A1A2E", button_bg := "#30475E", modal_bg := "#16213E"
    modal_border := "#4ECDC4", text_primary := "#FFFFFF"
    text_secondary := "#B8C5D6", text_muted := "#94A3B8"
    progress_bg := "#2d3748", timer_bg := "#16213E"
    success := "#10B981", error := "#DC3545", warning := "#F59E0B" }

/-- `SettingsManager.THEMES['light']`. -/
def light_theme : ThemePalette :=
  { work := "#FF6B6B", short_break := "#4ECDC4", long_break := "#45B7D1"
    bg_primary := "#F8F9FA", button_bg := "#E9ECEF", modal_bg := "#FFFFFF"
    modal_border := "#4ECDC4", text_primary := "#212529"
    text_secondary := "#495057", text_muted := "#6C757D"
    progress_bg := "#DEE2E6", timer_bg := "#FFFFFF"
    success := "#198754", error := "#DC3545", warning := "#FFC107" }

/-- Key lookup in `SettingsManager.THEMES`. -/
def themes_get (mode : String) : Option ThemePalette :=
  if mode = "dark" then some dark_theme
  else if mode = "light" then some light_theme
  else none

/-- `SettingsManager.get_theme_mode`. -/
def get_theme_mode (s : Settings) : String := s.theme_mode

/-- `SettingsManager.get_theme`: `THEMES.get(mode, THEMES['dark'])`. -/
def get_theme (s : Settings) : ThemePalette :=
  (themes_get (get_theme_mode s)).getD dark_theme

/-- `SettingsManager.toggle_theme` restricted to the in-memory state: flip
the mode, then return `get_theme()`. The accompanying file write does not
touch the in-memory record (an `IOError` is caught and printed). -/
def toggle_theme (s : Settings) : Settings × ThemePalette :=
  let new_mode := if get_theme_mode s = "dark" then "light" else "dark"
  let s2 : Settings := { s with theme_mode := new_mode }
  (s2, get_theme s2)

/-! ### Auxiliary definitions used in statements -/

/-- The exact conjunction of duration positivity carried along the
reachability argument. -/
def DurPos (s : LogicState) : Prop :=
  0 < s.work_duration ∧ 0 < s.short_break_duration ∧
    0 < s.long_break_duration ∧ 0 < s.long_break_interval

/-- The timing invariant of the spec: `0 ≤ time_left ≤ total_time` and
`total_time` is the configured duration (in seconds) of the current mode. -/
def TimeInv (s : LogicState) : Prop :=
  0 ≤ s.time_left ∧ s.time_left ≤ s.total_time ∧
    s.total_time = mode_duration_min s s.timer_mode * 60

/-- The full inductive invariant. -/
def Inv (s : LogicState) : Prop := DurPos s ∧ TimeInv s

/-- One `skip()` call, state only. -/
def skipStep (s : LogicState) : LogicState := (skip s).1

/-- A paused engine sitting at `00:00` in work mode (default configuration). -/
def pausedAtZero : LogicState :=
  { work_duration := 25, short_break_duration := 5, long_break_duration := 15
    long_break_interval := 4, auto_start := false
    time_left := 0, total_time := 1500
    is_running := false, timer_mode := Mode.work, pomodoros_completed := 0 }

/-- The same engine state, but running: the one-tick-delayed completion
window. -/
def runningAtZero : LogicState :=
  { pausedAtZero with is_running := true }

/-- A state whose `total_time` is zero, exercising the divide-by-zero guard
of `get_progress`. -/
def zeroTotal : LogicState :=
  { pausedAtZero with total_time := 0 }

/-- Start a freshly constructed 1-minute-work engine and let it run down to
zero: `start()` followed by 60 `tick()` calls. -/
def runToZeroOps : List Op :=
  Op.start :: List.replicate 60 Op.tick

/-- The state that `runToZeroOps` reaches from `init 1 1 1 4 false`. -/
def runToZeroState : LogicState :=
  applyOps (init 1 1 1 4 false) runToZeroOps

/-! ### Helper lemmas: projections of the transition functions -/

theorem switch_mode_work_duration (s : LogicState) (m : Mode) :
    (switch_mode s m).1.work_duration = s.work_duration := by
  cases m <;> rfl

theorem switch_mode_short_break_duration (s : LogicState) (m : Mode) :
    (switch_mode s m).1.short_break_duration = s.short_break_duration := by
  cases m <;> rfl

theorem switch_mode_long_break_duration (s : LogicState) (m : Mode) :
    (switch_mode s m).1.long_break_duration = s.long_break_duration := by
  cases m <;> rfl

theorem switch_mode_long_break_interval (s : LogicState) (m : Mode) :
    (switch_mode s m).1.long_break_interval = s.long_break_interval := by
  cases m <;> rfl

theorem switch_mode_auto_start (s : LogicState) (m : Mode) :
    (switch_mode s m).1.auto_start = s.auto_start := by
  cases m <;> rfl

theorem switch_mode_is_running (s : LogicState) (m : Mode) :
    (switch_mode s m).1.is_running = s.is_running := by
  cases m <;> rfl

theorem switch_mode_pomodoros (s : LogicState) (m : Mode) :
    (switch_mode s m).1.pomodoros_completed = s.pomodoros_completed := by
  cases m <;> rfl

theorem switch_mode_timer_mode (s : LogicState) (m : Mode) :
    (switch_mode s m).1.timer_mode = m := by
  cases m <;> rfl

theorem switch_mode_time_left (s : LogicState) (m : Mode) :
    (switch_mode s m).1.time_left = mode_duration_min s m * 60 := by
  cases m <;> rfl

theorem switch_mode_total_time (s : LogicState) (m : Mode) :
    (switch_mode s m).1.total_time = mode_duration_min s m * 60 := by
  cases m <;> rfl

theorem switch_mode_events (s : LogicState) (m : Mode) :
    (switch_mode s m).2 = [Event.modeChange m] := by
  cases m <;> rfl

/-- `complete` leaves the five configuration fields untouched. -/
theorem complete_config (s : LogicState) :
    (complete s).1.work_duration = s.work_duration ∧
    (complete s).1.short_break_duration = s.short_break_duration ∧
    (complete s).1.long_break_duration = s.long_break_duration ∧
    (complete s).1.long_break_interval = s.long_break_interval ∧
    (complete s).1.auto_start = s.auto_start := by
  by_cases hm : s.timer_mode = Mode.work <;> by_cases ha : s.auto_start <;>
    simp [complete, hm, ha, start, switch_mode_work_duration,
      switch_mode_short_break_duration, switch_mode_long_break_duration,
      switch_mode_long_break_interval, switch_mode_auto_start]

/-- `complete` increments the round counter exactly on work completions. -/
theorem complete_pomodoros (s : LogicState) :
    (complete s).1.pomodoros_completed =
      (if s.timer_mode = Mode.work then s.pomodoros_completed + 1
       else s.pomodoros_completed) := by
  by_cases hm : s.timer_mode = Mode.work <;> by_cases ha : s.auto_start <;>
    simp [complete, hm, ha, start, switch_mode_auto_start, switch_mode_pomodoros]

/-- The mode `complete` switches to. -/
theorem complete_timer_mode (s : LogicState) :
    (complete s).1.timer_mode =
      (if s.timer_mode = Mode.work then
        (if (s.pomodoros_completed + 1) % s.long_break_interval = 0 then Mode.long_break
         else Mode.short_break)
       else Mode.work) := by
  by_cases hm : s.timer_mode = Mode.work <;> by_cases ha : s.auto_start <;>
    simp [complete, hm, ha, start, switch_mode_auto_start, switch_mode_timer_mode]

/-- After `complete`, the engine is running exactly when `auto_start` is set. -/
theorem complete_is_running (s : LogicState) :
    (complete s).1.is_running = s.auto_start := by
  by_cases hm : s.timer_mode = Mode.work <;> by_cases ha : s.auto_start <;>
    simp [complete, hm, ha, start, switch_mode_auto_start, switch_mode_is_running]

/-- The notifications fired by `complete`: the mode change (from inside
`switch_mode`) and then the completion carrying the old mode. -/
theorem complete_events (s : LogicState) :
    (complete s).2 =
      [Event.modeChange (complete s).1.timer_mode, Event.complete s.timer_mode] := by
  by_cases hm : s.timer_mode = Mode.work <;> by_cases ha : s.auto_start <;>
    simp [complete, hm, ha, start, switch_mode_auto_start, switch_mode_timer_mode,
      switch_mode_events]

/-- `skip` is `complete` after stopping and zeroing the clock. -/
theorem skip_eq (s : LogicState) :
    skip s = complete { s with is_running := false, time_left := 0 } := rfl

/-! ### Helper lemmas: the inductive invariant -/

theorem mode_duration_min_congr {s t : LogicState} (m : Mode)
    (hw : t.work_duration = s.work_duration)
    (hsb : t.short_break_duration = s.short_break_duration)
    (hlb : t.long_break_duration = s.long_break_duration) :
    mode_duration_min t m = mode_duration_min s m := by
  cases m <;> simp [mode_duration_min, hw, hsb, hlb]

theorem inv_switch (s : LogicState) (m : Mode) (hd : DurPos s) :
    Inv (switch_mode s m).1 := by
  obtain ⟨h1, h2, h3, h4⟩ := hd
  cases m <;>
    simp [switch_mode, Inv, DurPos, TimeInv, mode_duration_min] <;>
    omega

theorem durPos_complete (s : LogicState) (hd : DurPos s) :
    DurPos (complete s).1 := by
  obtain ⟨c1, c2, c3, c4, c5⟩ := complete_config s
  obtain ⟨h1, h2, h3, h4⟩ := hd
  exact ⟨c1 ▸ h1, c2 ▸ h2, c3 ▸ h3, c4 ▸ h4⟩

theorem inv_complete (s : LogicState) (hd : DurPos s) :
    Inv (complete s).1 := by
  obtain ⟨h1, h2, h3, h4⟩ := hd
  by_cases hm : s.timer_mode = Mode.work
  · by_cases hmod : (s.pomodoros_completed + 1) % s.long_break_interval = 0 <;>
      by_cases ha : s.auto_start <;>
      simp [complete, hm, hmod, ha, start, switch_mode, Inv, DurPos, TimeInv,
        mode_duration_min] <;>
      omega
  · by_cases ha : s.auto_start <;>
      simp [complete, hm, ha, start, switch_mode, Inv, DurPos, TimeInv,
        mode_duration_min] <;>
      omega

theorem inv_applyOp (s : LogicState) (op : Op) (hI : Inv s) (hv : opValid op) :
    Inv (applyOp s op) := by
  obtain ⟨⟨h1, h2, h3, h4⟩, ht1, ht2, ht3⟩ := hI
  cases op with
  | start =>
      cases hm : s.timer_mode <;>
        simp_all [applyOp, start, Inv, DurPos, TimeInv, mode_duration_min]
  | pause =>
      cases hm : s.timer_mode <;>
        simp_all [applyOp, pause, Inv, DurPos, TimeInv, mode_duration_min]
  | reset =>
      cases hm : s.timer_mode <;>
        simp [applyOp, reset, hm, Inv, DurPos, TimeInv, mode_duration_min] <;>
        omega
  | resetFlow =>
      refine inv_switch _ Mode.work ?_
      exact ⟨h1, h2, h3, h4⟩
  | skip =>
      refine inv_complete _ ?_
      exact ⟨h1, h2, h3, h4⟩
  | tick =>
      by_cases hb1 : s.is_running = true ∧ 0 < s.time_left
      · cases hm : s.timer_mode <;>
          simp_all [applyOp, tick, Inv, DurPos, TimeInv, mode_duration_min] <;>
          omega
      · by_cases hb2 : s.is_running = true ∧ s.time_left = 0
        · have : (applyOp s Op.tick) = (complete s).1 := by
            simp [applyOp, tick, hb1, hb2]
          rw [this]
          exact inv_complete s ⟨h1, h2, h3, h4⟩
        · have : (applyOp s Op.tick) = s := by
            simp [applyOp, tick, hb1, hb2]
          rw [this]
          exact ⟨⟨h1, h2, h3, h4⟩, ht1, ht2, ht3⟩
  | reconfigure w sm lm i a =>
      obtain ⟨hw, hs, hl, hi⟩ := hv
      refine inv_switch _ Mode.work ?_
      exact ⟨hw, hs, hl, hi⟩

theorem inv_reachable (s : LogicState) (h : Reachable s) : Inv s := by
  induction h with
  | init w sm lm i a hw hs hl hi =>
      refine ⟨⟨hw, hs, hl, hi⟩, ?_, ?_, ?_⟩ <;>
        simp [init, mode_duration_min] <;> omega
  | step s op h hv ih => exact inv_applyOp s op ih hv

/-- Reachability is closed under valid operation lists. -/
theorem reachable_applyOps (s : LogicState) (ops : List Op) (h : Reachable s)
    (hv : ∀ op ∈ ops, opValid op) : Reachable (applyOps s ops) := by
  induction ops generalizing s with
  | nil => simpa [applyOps] using h
  | cons op rest ih =>
      have h1 : applyOps s (op :: rest) = applyOps (applyOp s op) rest := by
        simp [applyOps]
      rw [h1]
      exact ih (applyOp s op)
        (Reachable.step s op h (hv op (by simp)))
        (fun o ho => hv o (by simp [ho]))

/-! ### Claim theorems -/

/-- Claim C1 (amended): `tick()` obeys the three-branch contract — not
running is a complete no-op firing nothing; running with time left decrements
by exactly one, fires exactly one tick notification and returns `True`;
running at zero performs the completion transition and returns `False`. The
return value is `True` only in the ticked case, so the no-change and
completed outcomes are distinguished from it by notifications, not by the
return value. -/
theorem tick_branch_contract (s : LogicState) :
    (s.is_running = false → tick s = (s, false, [])) ∧
    (s.is_running = true → 0 < s.time_left →
      tick s = ({ s with time_left := s.time_left - 1 }, true, [Event.tick])) ∧
    (s.is_running = true → s.time_left = 0 →
      tick s = ((complete s).1, false, (complete s).2)) := by
  refine ⟨fun hr => ?_, fun hr hp => ?_, fun hr h0 => ?_⟩
  · simp [tick, hr]
  · simp [tick, hr, hp]
  · simp [tick, hr, h0]

/-- Witness for C1: a running engine with 10 seconds left ticks down to 9,
returns `True` and fires one tick notification. -/
theorem tick_branch_contract_witness :
    tick { pausedAtZero with is_running := true, time_left := 10 } =
      ({ pausedAtZero with is_running := true, time_left := 9 }, true, [Event.tick]) := by
  have h := (tick_branch_contract
    { pausedAtZero with is_running := true, time_left := 10 }).2.1 rfl (by decide)
  simpa using h

/-- Counterexample for C1 as stated: the Python return value of `tick()` is
`False` both for the not-running no-op and for the completion branch, so the
caller cannot distinguish the "no change" and "completed" results from the
returned value (`pausedAtZero` is not running, `runningAtZero` is running at
zero and completes). -/
theorem tick_return_not_distinguishable :
    pausedAtZero.is_running = false ∧
    runningAtZero.is_running = true ∧ runningAtZero.time_left = 0 ∧
    (tick pausedAtZero).2.1 = (tick runningAtZero).2.1 := by
  refine ⟨rfl, rfl, rfl, ?_⟩
  decide

/-- Claim C5: a missing, unreadable or JSON-malformed settings file loads as
exactly the documented default configuration, with no error path. -/
theorem corrupt_settings_yield_defaults :
    load_settings SettingsFile.missing = some get_defaults ∧
    load_settings SettingsFile.unreadable = some get_defaults ∧
    load_settings SettingsFile.malformed = some get_defaults ∧
    get_defaults =
      { work_duration := 25, short_break_duration := 5, long_break_duration := 15
        long_break_interval := 4, auto_start := false, enable_sound := true
        theme_mode := "dark" } :=
  ⟨rfl, rfl, rfl, rfl⟩

/-- Claim C9: `start()` and `pause()` write only the `is_running` flag, leave
all nine other fields untouched, and are idempotent. -/
theorem start_pause_frame (s : LogicState) :
    start s = { s with is_running := true } ∧
    pause s = { s with is_running := false } ∧
    (start s).work_duration = s.work_duration ∧
    (start s).short_break_duration = s.short_break_duration ∧
    (start s).long_break_duration = s.long_break_duration ∧
    (start s).long_break_interval = s.long_break_interval ∧
    (start s).auto_start = s.auto_start ∧
    (start s).time_left = s.time_left ∧
    (start s).total_time = s.total_time ∧
    (start s).timer_mode = s.timer_mode ∧
    (start s).pomodoros_completed = s.pomodoros_completed ∧
    (pause s).work_duration = s.work_duration ∧
    (pause s).short_break_duration = s.short_break_duration ∧
    (pause s).long_break_duration = s.long_break_duration ∧
    (pause s).long_break_interval = s.long_break_interval ∧
    (pause s).auto_start = s.auto_start ∧
    (pause s).time_left = s.time_left ∧
    (pause s).total_time = s.total_time ∧
    (pause s).timer_mode = s.timer_mode ∧
    (pause s).pomodoros_completed = s.pomodoros_completed ∧
    start (start s) = start s ∧
    pause (pause s) = pause s := by
  refine ⟨rfl, rfl, rfl, rfl, rfl, rfl, rfl, rfl, rfl, rfl, rfl, rfl, rfl,
    rfl, rfl, rfl, rfl, rfl, rfl, rfl, rfl, rfl⟩

/-- Claim C10: on an in-memory settings record whose mode is `dark` or
`light`, `toggle_theme()` swaps the mode, returns the palette of the new
mode, and applied twice restores the whole record. -/
theorem toggle_theme_involution (s : Settings)
    (h : s.theme_mode = "dark" ∨ s.theme_mode = "light") :
    ((toggle_theme s).1.theme_mode =
      (if s.theme_mode = "dark" then "light" else "dark")) ∧
    (s.theme_mode = "dark" → (toggle_theme s).2 = light_theme) ∧
    (s.theme_mode = "light" → (toggle_theme s).2 = dark_theme) ∧
    (toggle_theme (toggle_theme s).1).1 = s := by
  obtain ⟨wd, sb, lb, iv, au, es, tm⟩ := s
  rcases h with h | h <;>
    simp only at h <;> subst h <;>
    refine ⟨?_, ?_, ?_, ?_⟩ <;>
    simp [toggle_theme, get_theme, get_theme_mode, themes_get]

/-- Witness for C10: toggling the default (dark) settings gives light mode
with the light palette, and toggling twice restores the defaults. -/
theorem toggle_theme_involution_witness :
    (toggle_theme get_defaults).1.theme_mode = "light" ∧
    (toggle_theme get_defaults).2 = light_theme ∧
    (toggle_theme (toggle_theme get_defaults).1).1 = get_defaults := by
  have h := toggle_theme_involution get_defaults (Or.inl rfl)
  exact ⟨by simpa using h.1, h.2.1 rfl, h.2.2.2⟩

/-- Counterexample for C3 as stated: the state reached from a positively
configured initial engine (`init 1 1 1 4 false`) by `start()` followed by 60
`tick()` calls has `time_left = 0` while `is_running` is still true — the
engine sits running at `00:00` for one tick before the completion fires — so
"`isRunning` is false whenever `timeLeftSeconds == 0`" fails on a reachable
state. -/
theorem running_at_zero_reachable :
    ¬ (∀ s : LogicState, Reachable s → s.time_left = 0 → s.is_running = false) := by
  intro hclaim
  have hreach : Reachable runToZeroState := by
    refine reachable_applyOps (init 1 1 1 4 false) runToZeroOps
      (Reachable.init 1 1 1 4 false (by decide) (by decide) (by decide) (by decide))
      ?_
    intro op hop
    rcases List.mem_cons.1 hop with h | h
    · subst h; trivial
    · have := List.eq_of_mem_replicate h
      subst this; trivial
  have hzero : runToZeroState.time_left = 0 := by
    set_option maxRecDepth 8000 in decide
  have hrun : runToZeroState.is_running = true := by
    set_option maxRecDepth 8000 in decide
  have := hclaim runToZeroState hreach hzero
  rw [this] at hrun
  exact Bool.false_ne_true hrun

/-- Claim C3 (amended): the zero-at-running condition can hold only in the
one-tick-delayed completion window; whenever a running engine sits at zero,
the very next `tick()` performs the completion transition, and — when
`auto_start` is off — leaves `is_running` false. -/
theorem tick_at_zero_completes (s : LogicState)
    (hr : s.is_running = true) (h0 : s.time_left = 0) :
    (tick s).1 = (complete s).1 ∧
    (tick s).2.2 = (complete s).2 ∧
    (s.auto_start = false → (tick s).1.is_running = false) := by
  have htick : tick s = ((complete s).1, false, (complete s).2) := by
    simp [tick, hr, h0]
  refine ⟨by rw [htick], by rw [htick], fun ha => ?_⟩
  rw [htick]
  simpa [ha] using complete_is_running s

/-- Witness for C3 (amended): ticking the concrete running-at-zero state
completes it and stops it. -/
theorem tick_at_zero_completes_witness :
    (tick runningAtZero).1 = (complete runningAtZero).1 ∧
    (tick runningAtZero).1.is_running = false := by
  have h := tick_at_zero_completes runningAtZero rfl rfl
  exact ⟨h.1, h.2.2 rfl⟩

/-- Claim C4: in every state reachable from a positively configured initial
engine through valid public operations, `0 ≤ time_left ≤ total_time` and
`total_time` equals the configured duration in seconds of the current mode. -/
theorem reachable_time_invariant (s : LogicState) (h : Reachable s) :
    0 ≤ s.time_left ∧ s.time_left ≤ s.total_time ∧
      s.total_time = mode_duration_min s s.timer_mode * 60 := by
  exact (inv_reachable s h).2

/-- Witness for C4: the invariant holds at the default initial state. -/
theorem reachable_time_invariant_witness :
    0 ≤ (init 25 5 15 4 false).time_left ∧
    (init 25 5 15 4 false).time_left ≤ (init 25 5 15 4 false).total_time ∧
    (init 25 5 15 4 false).total_time =
      mode_duration_min (init 25 5 15 4 false) (init 25 5 15 4 false).timer_mode * 60 :=
  reachable_time_invariant (init 25 5 15 4 false)
    (Reachable.init 25 5 15 4 false (by decide) (by decide) (by decide) (by decide))

/-- Claim C8: `get_progress` returns `(total_time - time_left) / total_time`
exactly when `total_time > 0` and `0.0` when `total_time = 0`; under the
timing invariant its value lies in `[0, 1]`; it is `0.0` immediately after
any mode switch; and `total_time = 0` is impossible in reachable states. -/
theorem progress_ratio_guarded (s : LogicState) (m : Mode) :
    (s.total_time = 0 → get_progress s = 0) ∧
    (0 < s.total_time →
      get_progress s =
        ((s.total_time : ℚ) - (s.time_left : ℚ)) / (s.total_time : ℚ)) ∧
    (0 ≤ s.time_left → s.time_left ≤ s.total_time →
      0 ≤ get_progress s ∧ get_progress s ≤ 1) ∧
    get_progress (switch_mode s m).1 = 0 ∧
    (Reachable s → 0 < s.total_time) := by
  refine ⟨fun h0 => ?_, fun hpos => ?_, fun hle1 hle2 => ?_, ?_, fun hre => ?_⟩
  · simp [get_progress, h0]
  · simp only [get_progress, if_pos hpos]
    push_cast
    ring
  · by_cases hpos : 0 < s.total_time
    · simp only [get_progress, if_pos hpos]
      constructor
      · apply div_nonneg
        · have : (0 : Int) ≤ s.total_time - s.time_left := by omega
          exact_mod_cast this
        · exact_mod_cast hpos.le
      · rw [div_le_one (by exact_mod_cast hpos)]
        have : (s.total_time - s.time_left : Int) ≤ s.total_time := by omega
        exact_mod_cast this
    · simp [get_progress, hpos]
  · have h1 := switch_mode_total_time s m
    have h2 := switch_mode_time_left s m
    simp [get_progress, h1, h2]
  · obtain ⟨⟨d1, d2, d3, d4⟩, -, -, ht3⟩ := inv_reachable s hre
    rw [ht3]
    cases hm : s.timer_mode <;> simp [mode_duration_min] <;> omega

/-- Witness for C8: the guard fires on a zero-total state; the ratio of the
default initial state is within bounds; the default initial state has
positive `total_time` via reachability. -/
theorem progress_ratio_guarded_witness :
    get_progress zeroTotal = 0 ∧
    0 ≤ get_progress (init 25 5 15 4 false) ∧
    get_progress (init 25 5 15 4 false) ≤ 1 ∧
    0 < (init 25 5 15 4 false).total_time := by
  refine ⟨(progress_ratio_guarded zeroTotal Mode.work).1 rfl, ?_, ?_, ?_⟩
  · exact ((progress_ratio_guarded (init 25 5 15 4 false) Mode.work).2.2.1
      (by decide) (by decide)).1
  · exact ((progress_ratio_guarded (init 25 5 15 4 false) Mode.work).2.2.1
      (by decide) (by decide)).2
  · exact (progress_ratio_guarded (init 25 5 15 4 false) Mode.work).2.2.2.2
      (Reachable.init 25 5 15 4 false (by decide) (by decide) (by decide) (by decide))

/-- Along the alternating skip chain from the default 4-interval initial
state, even positions are work phases with one completed work session per
round, and the following break is long exactly when the incoming completion
count is a multiple of 4. -/
theorem skip_chain (k : ℕ) :
    (skipStep^[2 * k] (init 25 5 15 4 false)).timer_mode = Mode.work ∧
    (skipStep^[2 * k] (init 25 5 15 4 false)).pomodoros_completed = (k : Int) ∧
    (skipStep^[2 * k] (init 25 5 15 4 false)).long_break_interval = 4 ∧
    (skipStep^[2 * k + 1] (init 25 5 15 4 false)).timer_mode =
      (if (k + 1) % 4 = 0 then Mode.long_break else Mode.short_break) := by
  have key : ∀ t : LogicState, t.timer_mode = Mode.work →
      (skipStep t).pomodoros_completed = t.pomodoros_completed + 1 ∧
      (skipStep t).timer_mode =
        (if (t.pomodoros_completed + 1) % t.long_break_interval = 0 then Mode.long_break
         else Mode.short_break) ∧
      (skipStep t).long_break_interval = t.long_break_interval := by
    intro t hm
    refine ⟨?_, ?_, ?_⟩
    · rw [skipStep, skip_eq, complete_pomodoros]
      simp [hm]
    · rw [skipStep, skip_eq, complete_timer_mode]
      simp [hm]
    · rw [skipStep, skip_eq]
      exact (complete_config _).2.2.2.1
  have keyb : ∀ t : LogicState, t.timer_mode ≠ Mode.work →
      (skipStep t).pomodoros_completed = t.pomodoros_completed ∧
      (skipStep t).timer_mode = Mode.work ∧
      (skipStep t).long_break_interval = t.long_break_interval := by
    intro t hm
    refine ⟨?_, ?_, ?_⟩
    · rw [skipStep, skip_eq, complete_pomodoros]
      simp [hm]
    · rw [skipStep, skip_eq, complete_timer_mode]
      simp [hm]
    · rw [skipStep, skip_eq]
      exact (complete_config _).2.2.2.1
  induction k with
  | zero =>
      refine ⟨rfl, rfl, rfl, ?_⟩
      have h := (key (init 25 5 15 4 false) rfl).2.1
      simp only [Function.iterate_one, Nat.mul_zero, Nat.zero_add,
        Function.iterate_succ_apply, Function.iterate_zero_apply] at h ⊢
      rw [h]
      norm_num [init]
  | succ n ih =>
      obtain ⟨hm, hp, hi, hnext⟩ := ih
      have h2 : 2 * (n + 1) = (2 * n + 1) + 1 := by ring
      have e1 := key (skipStep^[2 * n] (init 25 5 15 4 false)) hm
      have hmid1 : skipStep^[2 * n + 1] (init 25 5 15 4 false) =
          skipStep (skipStep^[2 * n] (init 25 5 15 4 false)) :=
        Function.iterate_succ_apply' skipStep (2 * n) (init 25 5 15 4 false)
      have hmidmode : (skipStep^[2 * n + 1] (init 25 5 15 4 false)).timer_mode ≠ Mode.work := by
        rw [hmid1, e1.2.1]
        split <;> simp
      have e2 := keyb (skipStep^[2 * n + 1] (init 25 5 15 4 false)) hmidmode
      have hstep : skipStep^[2 * (n + 1)] (init 25 5 15 4 false) =
          skipStep (skipStep^[2 * n + 1] (init 25 5 15 4 false)) := by
        rw [h2]
        exact Function.iterate_succ_apply' skipStep (2 * n + 1) (init 25 5 15 4 false)
      have hmode2 : (skipStep^[2 * (n + 1)] (init 25 5 15 4 false)).timer_mode = Mode.work := by
        rw [hstep]
        exact e2.2.1
      have hpom2 : (skipStep^[2 * (n + 1)] (init 25 5 15 4 false)).pomodoros_completed =
          ((n + 1 : ℕ) : Int) := by
        rw [hstep, e2.1, hmid1, e1.1, hp]
        push_cast
        ring
      have hint2 : (skipStep^[2 * (n + 1)] (init 25 5 15 4 false)).long_break_interval = 4 := by
        rw [hstep, e2.2.2, hmid1, e1.2.2]
        exact hi
      refine ⟨hmode2, hpom2, hint2, ?_⟩
      have e3 := key (skipStep^[2 * (n + 1)] (init 25 5 15 4 false)) hmode2
      have hmid2 : skipStep^[2 * (n + 1) + 1] (init 25 5 15 4 false) =
          skipStep (skipStep^[2 * (n + 1)] (init 25 5 15 4 false)) :=
        Function.iterate_succ_apply' skipStep (2 * (n + 1)) (init 25 5 15 4 false)
      rw [hmid2, e3.2.1, hpom2, hint2]
      have hiff : (((n + 1 : ℕ) : Int) + 1) % 4 = 0 ↔ ((n + 1) + 1) % 4 = 0 := by
        omega
      by_cases hc : ((n + 1) + 1) % 4 = 0
      · rw [if_pos (hiff.mpr hc), if_pos hc]
      · rw [if_neg (fun h => hc (hiff.mp h)), if_neg hc]

/-- Claim C2: every completion (via `complete`, reached by `tick()` at zero
or by `skip()`) increments the round counter exactly on work completions and
routes to a long break exactly when the incremented counter is a multiple of
`long_break_interval`, else a short break; break completions always return
to work. With interval 4 from a fresh engine, the break after the k-th work
completion is long exactly when `k` is a multiple of 4. -/
theorem completion_routing (s : LogicState) (k : ℕ) :
    (s.timer_mode = Mode.work →
      (complete s).1.pomodoros_completed = s.pomodoros_completed + 1 ∧
      (complete s).1.timer_mode =
        (if (s.pomodoros_completed + 1) % s.long_break_interval = 0 then Mode.long_break
         else Mode.short_break) ∧
      (skip s).1.pomodoros_completed = s.pomodoros_completed + 1 ∧
      (skip s).1.timer_mode =
        (if (s.pomodoros_completed + 1) % s.long_break_interval = 0 then Mode.long_break
         else Mode.short_break)) ∧
    (s.timer_mode ≠ Mode.work →
      (complete s).1.pomodoros_completed = s.pomodoros_completed ∧
      (complete s).1.timer_mode = Mode.work ∧
      (skip s).1.pomodoros_completed = s.pomodoros_completed ∧
      (skip s).1.timer_mode = Mode.work) ∧
    (s.is_running = true → s.time_left = 0 → (tick s).1 = (complete s).1) ∧
    ((skipStep^[2 * k] (init 25 5 15 4 false)).timer_mode = Mode.work ∧
     (skipStep^[2 * k] (init 25 5 15 4 false)).pomodoros_completed = (k : Int) ∧
     (skipStep^[2 * k + 1] (init 25 5 15 4 false)).timer_mode =
       (if (k + 1) % 4 = 0 then Mode.long_break else Mode.short_break)) := by
  obtain ⟨hc1, hc2, hc3, hc4⟩ := skip_chain k
  refine ⟨fun hm => ⟨?_, ?_, ?_, ?_⟩, fun hm => ⟨?_, ?_, ?_, ?_⟩,
    fun hr h0 => ?_, hc1, hc2, hc4⟩
  · rw [complete_pomodoros]; simp [hm]
  · rw [complete_timer_mode]; simp [hm]
  · rw [skip_eq, complete_pomodoros]; simp [hm]
  · rw [skip_eq, complete_timer_mode]; simp [hm]
  · rw [complete_pomodoros]; simp [hm]
  · rw [complete_timer_mode]; simp [hm]
  · rw [skip_eq, complete_pomodoros]; simp [hm]
  · rw [skip_eq, complete_timer_mode]; simp [hm]
  · simp [tick, hr, h0]

/-- Witness for C2: the first completion of a fresh default engine (interval
4) counts one pomodoro and routes to a short break; along the skip chain the
4th work completion is followed by a long break. -/
theorem completion_routing_witness :
    (complete (init 25 5 15 4 false)).1.pomodoros_completed = 1 ∧
    (complete (init 25 5 15 4 false)).1.timer_mode = Mode.short_break ∧
    (skipStep^[2 * 3 + 1] (init 25 5 15 4 false)).timer_mode = Mode.long_break := by
  have h := completion_routing (init 25 5 15 4 false) 3
  have h1 := h.1 rfl
  refine ⟨by simpa using h1.1, ?_, ?_⟩
  · have := h1.2.1
    norm_num [init] at this
    exact this
  · have := h.2.2.2.2.2
    norm_num at this
    exact this

/-- Last-binding lookup distributes over append with right priority, exactly
as `dict.update` overrides earlier keys. -/
theorem lookupLast_append (a b : List (String × Json)) (k : String) :
    lookupLast (a ++ b) k =
      match lookupLast b k with
      | some v => some v
      | none => lookupLast a k := by
  induction a with
  | nil =>
      cases h : lookupLast b k <;> simp [lookupLast, h]
  | cons p rest ih =>
      obtain ⟨k2, v⟩ := p
      cases h : lookupLast b k <;>
        simp only [List.cons_append, lookupLast, List.append_eq, ih, h]

/-- Merging a loaded dict over the defaults: every default key is present,
with the loaded value taking precedence. -/
theorem merged_get (kvs : List (String × Json)) (k : String) (d : Json)
    (hd : lookupLast defaults_json k = some d) :
    lookupLast (defaults_json ++ kvs) k = some ((lookupLast kvs k).getD d) := by
  rw [lookupLast_append]
  cases h : lookupLast kvs k <;> simp [hd]

/-- `_clamp_int` always lands inside `[min_value, max_value]` when the
fallback does. -/
theorem clamp_int_mem (v : Option Json) (lo hi fb : Int)
    (h1 : lo ≤ fb) (h2 : fb ≤ hi) :
    lo ≤ clamp_int v lo hi fb ∧ clamp_int v lo hi fb ≤ hi := by
  cases v with
  | none =>
      simp only [clamp_int]
      exact ⟨h1, h2⟩
  | some j =>
      cases hp : pyInt j with
      | none =>
          simp only [clamp_int, hp]
          exact ⟨h1, h2⟩
      | some i =>
          simp only [clamp_int, hp]
          exact ⟨le_max_left _ _, max_le (le_trans h1 h2) (min_le_left hi i)⟩

/-- Inversion of a successful `_sanitize_settings` run: every field of the
produced record is determined by the corresponding rule of the source. -/
theorem sanitize_settings_inv (settings : List (String × Json)) (st : Settings)
    (h : sanitize_settings settings = some st) :
    st.work_duration = clamp_int (lookupLast settings "work_duration") 1 90 25 ∧
    st.short_break_duration = clamp_int (lookupLast settings "short_break_duration") 1 30 5 ∧
    st.long_break_duration = clamp_int (lookupLast settings "long_break_duration") 1 60 15 ∧
    st.long_break_interval = clamp_int (lookupLast settings "long_break_interval") 1 10 4 ∧
    st.auto_start = pyBool ((lookupLast settings "auto_start").getD (Json.bool false)) ∧
    st.enable_sound = pyBool ((lookupLast settings "enable_sound").getD (Json.bool true)) ∧
    some st.theme_mode =
      sanitize_theme ((lookupLast settings "theme_mode").getD (Json.str "dark")) := by
  simp only [sanitize_settings] at h
  cases htm : sanitize_theme ((lookupLast settings "theme_mode").getD (Json.str "dark")) with
  | none =>
      rw [htm] at h
      exact absurd h (by simp)
  | some tm =>
      rw [htm] at h
      have hrec := Option.some.inj h
      subst hrec
      exact ⟨rfl, rfl, rfl, rfl, rfl, rfl, rfl⟩

/-- Counterexample for C6 as stated: loading `{"auto_start": "no"}` succeeds
and does not fall back to the documented default `False` — Python
`bool("no")` is `True`, so the sanitized `auto_start` differs from the
default. -/
theorem bool_field_truthiness_counterexample :
    load_settings (SettingsFile.parsed [("auto_start", Json.str "no")])
      = some { get_defaults with auto_start := true } ∧
    get_defaults.auto_start = false ∧
    ({ get_defaults with auto_start := true } : Settings).auto_start ≠
      get_defaults.auto_start := by
  exact ⟨rfl, rfl, by decide⟩

/-- Claim C6 (amended): whenever the load succeeds and produces a sanitized
record, a missing boolean field has its documented default (`auto_start =
False`, `enable_sound = True`), but a present malformed value is coerced
with Python `bool()` truthiness rather than replaced by the default. (A load
can instead crash, but only on an unhashable `theme_mode`; the boolean rules
themselves never raise.) -/
theorem bool_field_sanitization (kvs : List (String × Json)) (j : Json)
    (st : Settings)
    (hload : load_settings (SettingsFile.parsed kvs) = some st) :
    (lookupLast kvs "auto_start" = none → st.auto_start = false) ∧
    (lookupLast kvs "auto_start" = some j → st.auto_start = pyBool j) ∧
    (lookupLast kvs "enable_sound" = none → st.enable_sound = true) ∧
    (lookupLast kvs "enable_sound" = some j → st.enable_sound = pyBool j) := by
  have hinv := sanitize_settings_inv (defaults_json ++ kvs) st hload
  obtain ⟨-, -, -, -, hA, hE, -⟩ := hinv
  have ha := merged_get kvs "auto_start" (Json.bool false) rfl
  have he := merged_get kvs "enable_sound" (Json.bool true) rfl
  refine ⟨fun h => ?_, fun h => ?_, fun h => ?_, fun h => ?_⟩
  · rw [hA, ha, h]
    simp [pyBool]
  · rw [hA, ha, h]
    simp
  · rw [hE, he, h]
    simp [pyBool]
  · rw [hE, he, h]
    simp

/-- Witness for C6 (amended): a record without boolean keys loads with both
defaults; an explicit `false` for `enable_sound` is kept. -/
theorem bool_field_sanitization_witness :
    get_defaults.auto_start = false ∧
    ({ get_defaults with enable_sound := false } : Settings).enable_sound
      = pyBool (Json.bool false) := by
  constructor
  · exact (bool_field_sanitization [] Json.null get_defaults rfl).1 rfl
  · exact (bool_field_sanitization [("enable_sound", Json.bool false)]
      (Json.bool false) { get_defaults with enable_sound := false } rfl).2.2.2 rfl

/-- Counterexample for C7 as stated: the JSON string `"999"` is not an
integer, yet loading `{"work_duration": "999"}` does not replace it by the
default 25 — Python `int("999")` parses it and the clamp yields 90. -/
theorem numeric_string_clamped_counterexample :
    load_settings (SettingsFile.parsed [("work_duration", Json.str "999")])
      = some { get_defaults with work_duration := 90 } ∧
    get_defaults.work_duration = 25 ∧
    ({ get_defaults with work_duration := 90 } : Settings).work_duration ≠
      get_defaults.work_duration := by
  refine ⟨rfl, rfl, by decide⟩

/-- Claim C7 (amended): whenever the load succeeds, each integer field lies
clamped in its documented range (work `[1,90]`, short `[1,30]`, long
`[1,60]`, interval `[1,10]`): integer values are clamped directly, and
values on which Python `int()` raises (null, and for example lists and
dicts) are replaced by the field's default, while `int()`-convertible values
are converted then clamped (so `{"work_duration": 999}` yields 90 and the
string `"999"` yields 90, not the default). A `theme_mode` that is a string
outside `{dark, light}` or is missing falls back to `"dark"`, but an
unhashable `theme_mode` (JSON array or object) makes the load crash with an
uncaught `TypeError`, producing no record; `{"theme_mode": "purple"}` yields
`"dark"`. -/
theorem int_field_sanitization (kvs : List (String × Json)) (st : Settings)
    (n : Int) (s : String) (xs : List Json) (o : List (String × Json)) :
    (load_settings (SettingsFile.parsed kvs) = some st →
      (1 ≤ st.work_duration ∧ st.work_duration ≤ 90) ∧
      (1 ≤ st.short_break_duration ∧ st.short_break_duration ≤ 30) ∧
      (1 ≤ st.long_break_duration ∧ st.long_break_duration ≤ 60) ∧
      (1 ≤ st.long_break_interval ∧ st.long_break_interval ≤ 10) ∧
      (lookupLast kvs "work_duration" = some (Json.int n) →
        st.work_duration = max 1 (min 90 n)) ∧
      (lookupLast kvs "work_duration" = some Json.null →
        st.work_duration = 25) ∧
      (lookupLast kvs "work_duration" = some (Json.arr xs) →
        st.work_duration = 25) ∧
      (lookupLast kvs "work_duration" = some (Json.obj o) →
        st.work_duration = 25) ∧
      (lookupLast kvs "short_break_duration" = some (Json.int n) →
        st.short_break_duration = max 1 (min 30 n)) ∧
      (lookupLast kvs "short_break_duration" = some Json.null →
        st.short_break_duration = 5) ∧
      (lookupLast kvs "long_break_duration" = some (Json.int n) →
        st.long_break_duration = max 1 (min 60 n)) ∧
      (lookupLast kvs "long_break_duration" = some Json.null →
        st.long_break_duration = 15) ∧
      (lookupLast kvs "long_break_interval" = some (Json.int n) →
        st.long_break_interval = max 1 (min 10 n)) ∧
      (lookupLast kvs "long_break_interval" = some Json.null →
        st.long_break_interval = 4) ∧
      (lookupLast kvs "theme_mode" = some (Json.str s) → s ≠ "dark" → s ≠ "light" →
        st.theme_mode = "dark") ∧
      (lookupLast kvs "theme_mode" = none → st.theme_mode = "dark")) ∧
    (lookupLast kvs "theme_mode" = some (Json.arr xs) →
      load_settings (SettingsFile.parsed kvs) = none) ∧
    (lookupLast kvs "theme_mode" = some (Json.obj o) →
      load_settings (SettingsFile.parsed kvs) = none) ∧
    load_settings (SettingsFile.parsed [("work_duration", Json.int 999)])
      = some { get_defaults with work_duration := 90 } ∧
    load_settings (SettingsFile.parsed [("theme_mode", Json.str "purple")])
      = some get_defaults := by
  have hmw := merged_get kvs "work_duration" (Json.int 25) rfl
  have hms := merged_get kvs "short_break_duration" (Json.int 5) rfl
  have hml := merged_get kvs "long_break_duration" (Json.int 15) rfl
  have hmi := merged_get kvs "long_break_interval" (Json.int 4) rfl
  have hmt := merged_get kvs "theme_mode" (Json.str "dark") rfl
  refine ⟨fun hload => ?_, fun h => ?_, fun h => ?_, rfl, rfl⟩
  · obtain ⟨hW, hS, hL, hI, -, -, hT⟩ :=
      sanitize_settings_inv (defaults_json ++ kvs) st hload
    refine ⟨?_, ?_, ?_, ?_, fun h => ?_, fun h => ?_, fun h => ?_, fun h => ?_,
      fun h => ?_, fun h => ?_, fun h => ?_, fun h => ?_, fun h => ?_, fun h => ?_,
      fun h hs1 hs2 => ?_, fun h => ?_⟩
    · rw [hW]
      exact clamp_int_mem _ 1 90 25 (by norm_num) (by norm_num)
    · rw [hS]
      exact clamp_int_mem _ 1 30 5 (by norm_num) (by norm_num)
    · rw [hL]
      exact clamp_int_mem _ 1 60 15 (by norm_num) (by norm_num)
    · rw [hI]
      exact clamp_int_mem _ 1 10 4 (by norm_num) (by norm_num)
    · rw [hW, hmw, h]
      simp [clamp_int, pyInt]
    · rw [hW, hmw, h]
      simp [clamp_int, pyInt]
    · rw [hW, hmw, h]
      simp [clamp_int, pyInt]
    · rw [hW, hmw, h]
      simp [clamp_int, pyInt]
    · rw [hS, hms, h]
      simp [clamp_int, pyInt]
    · rw [hS, hms, h]
      simp [clamp_int, pyInt]
    · rw [hL, hml, h]
      simp [clamp_int, pyInt]
    · rw [hL, hml, h]
      simp [clamp_int, pyInt]
    · rw [hI, hmi, h]
      simp [clamp_int, pyInt]
    · rw [hI, hmi, h]
      simp [clamp_int, pyInt]
    · rw [hmt, h] at hT
      simp [sanitize_theme, hs1, hs2] at hT
      exact hT
    · rw [hmt, h] at hT
      simp [sanitize_theme] at hT
      exact hT
  · show sanitize_settings (defaults_json ++ kvs) = none
    simp only [sanitize_settings]
    rw [hmt, h]
    simp [sanitize_theme]
  · show sanitize_settings (defaults_json ++ kvs) = none
    simp only [sanitize_settings]
    rw [hmt, h]
    simp [sanitize_theme]

/-- Witness for C7 (amended): an out-of-range interval 25 clamps to 10; a
null `work_duration` (on which `int()` raises) falls back to 25; an array
`theme_mode` crashes the load. -/
theorem int_field_sanitization_witness :
    ({ get_defaults with long_break_interval := 10 } : Settings).long_break_interval
      = max 1 (min 10 25) ∧
    get_defaults.work_duration = 25 ∧
    load_settings (SettingsFile.parsed [("theme_mode", Json.arr [])]) = none := by
  refine ⟨?_, ?_, ?_⟩
  · have h := (int_field_sanitization [("long_break_interval", Json.int 25)]
      { get_defaults with long_break_interval := 10 } 25 "" [] []).1 rfl
    obtain ⟨-, -, -, -, -, -, -, -, -, -, -, -, hi, -, -, -⟩ := h
    exact hi rfl
  · have h := (int_field_sanitization [("work_duration", Json.null)]
      get_defaults 0 "" [] []).1 rfl
    obtain ⟨-, -, -, -, -, hn, -, -, -, -, -, -, -, -, -, -⟩ := h
    exact hn rfl
  · exact (int_field_sanitization [("theme_mode", Json.arr [])]
      get_defaults 0 "" [] []).2.1 rfl

end Pomocus
